import Mathlib

/-!
Verification of the Slide Editor document-model core.

Shallow embedding of the slide editor's document/state model:

* the type definitions of `src/types/index.ts`,
* the Document Store mutation operations of `src/hooks/useSlideStore.tsx`
  (`addSlide`, `deleteSlide`, `updateElement`, `bringToFront`, `sendToBack`, ...),
* the persistence layer of `src/utils/presentationStorage.ts`
  (`sanitizeSlidesForStorage`, `savePresentation`, `loadPresentation`) and the
  saved-slide storage (`saveSlideToStorage`),
* the template population engine (`populateTemplate`).

Modelling conventions:

* JavaScript numbers carrying pixel coordinates / z-indices are modelled as
  `Int` (all claims under study stay in integer range; no float rounding is
  exercised).
* `Date.now()` and `Math.random()` are modelled as explicit parameters
  (`now : Nat`, `rand : Nat → String`): the source uses them only to mint
  fresh identifier strings.
* `localStorage` is modelled as the value stored under the relevant fixed key:
  `Option JVal` for the presentation blob (a parsed JSON value, or `none` when
  the key is absent), a `List SavedSlide` for the saved-slide list.  Storage
  I/O errors (which the source catches and swallows) are outside the model.
* A thrown JavaScript `Error` is modelled with `Except String`.
-/

/-! ## Data model (`src/types/index.ts`) -/

/-- The `type: "text" | "image" | "shape"` union of `SlideElement`. -/
inductive ElemType where
  | text
  | image
  | shape
deriving DecidableEq, Repr

/-- The `borderRadius?: number | string` field, a JS union of number and string. -/
inductive NumOrStr where
  | num (n : Int)
  | str (s : String)
deriving DecidableEq, Repr

/-- The anonymous `style` record of `SlideElement`.  `textAlign`'s literal
union type is modelled as a plain string. -/
structure ElementStyle where
  backgroundColor : Option String := none
  color : Option String := none
  fontSize : Option Int := none
  fontWeight : Option String := none
  fontStyle : Option String := none
  textDecoration : Option String := none
  textAlign : Option String := none
  borderRadius : Option NumOrStr := none
deriving DecidableEq, Repr

/-- Type `SlideElement` of `src/types/index.ts`. -/
structure SlideElement where
  id : String
  type : ElemType
  x : Int
  y : Int
  width : Int
  height : Int
  content : Option String := none
  style : Option ElementStyle := none
  zIndex : Option Int := none
deriving DecidableEq, Repr

/-- Type `Slide` of `src/types/index.ts`. -/
structure Slide where
  id : String
  elements : List SlideElement
  backgroundColor : Option String := none
deriving DecidableEq, Repr

/-- Type `SavedSlide` of `src/types/index.ts` (`createdAt : Date` modelled as the
millisecond timestamp `Nat` that `Date.now()` would report). -/
structure SavedSlide where
  id : String
  name : String
  slide : Slide
  createdAt : Nat
  thumbnail : Option String := none
deriving DecidableEq, Repr

/-- The agent sub-record of `RealEstateData`. -/
structure Agent where
  name : String
  phone : String
  email : String
deriving DecidableEq, Repr

/-- Type `RealEstateData` of `src/types/index.ts`; numeric fields are integers in
all shipped data. -/
structure RealEstateData where
  address : String
  price : String
  bedrooms : Int
  bathrooms : Int
  sqft : Int
  yearBuilt : Int
  propertyType : String
  description : String
  agent : Agent
  images : List String
deriving DecidableEq, Repr

/-! ## Document Store state (`useSlideStore`)

The store's React state triple: `slides`, `currentSlideId`,
`selectedElementId`.  (`isLoaded` only gates auto-save, which is a
side effect outside the state model.) -/

/-- The Document Store's state: `slides`, `currentSlideId`,
`selectedElementId`. -/
structure StoreState where
  slides : List Slide
  currentSlideId : Option String := none
  selectedElementId : Option String := none
deriving DecidableEq, Repr

/-- The slide synthesized by the store when it needs a fresh empty one:
`{ id: ` slide-${Date.now()} `, elements: [], backgroundColor: "#ffffff" }`. -/
def freshSlide (now : Nat) : Slide :=
  { id := "slide-" ++ toString now, elements := [], backgroundColor := some "#ffffff" }

/-- The runtime shape check used both by `addSlide`'s `prev.filter` and by
`sanitizeSlidesForStorage`:
`slide && typeof slide === 'object' && slide.id && Array.isArray(slide.elements)`.
On a typed `Slide` the only live conjunct is the truthiness of the string
`slide.id`, i.e. `slide.id ≠ ""`. -/
def slideShapeOk (slide : Slide) : Bool :=
  slide.id ≠ ""

/-- A possibly malformed value passed as the `template` argument of
`addSlide`: each field may be missing (JS `undefined`). -/
structure TemplateLike where
  id : Option String := none
  elements : Option (List SlideElement) := none
  backgroundColor : Option String := none
deriving DecidableEq, Repr

/-- Validation of `addSlide`'s template, negation of
`!template.id || !Array.isArray(template.elements)`: the template must carry a
truthy `id` and an `elements` array. -/
def templateValid (t : TemplateLike) : Bool :=
  (match t.id with
   | some s => s ≠ ""
   | none => false) && t.elements.isSome

/-- Reading a `TemplateLike` that passed validation back as a `Slide`
(the source simply uses the template object itself as the new slide). -/
def templateToSlide (t : TemplateLike) : Slide :=
  { id := t.id.getD "", elements := t.elements.getD [], backgroundColor := t.backgroundColor }

/-- Operation `addSlide(template?)` of `useSlideStore`: validates the template (invalid
templates are rejected with an early `return`, so the state is untouched),
otherwise appends the new slide to the shape-checked previous slides, selects
it and clears the element selection. -/
def addSlide (now : Nat) (template : Option TemplateLike) (st : StoreState) : StoreState :=
  match template with
  | some t =>
    if templateValid t then
      let newSlide := templateToSlide t
      { slides := (st.slides.filter slideShapeOk) ++ [newSlide],
        currentSlideId := some newSlide.id,
        selectedElementId := none }
    else st
  | none =>
    let newSlide := freshSlide now
    { slides := (st.slides.filter slideShapeOk) ++ [newSlide],
      currentSlideId := some newSlide.id,
      selectedElementId := none }

/-- Operation `deleteSlide(slideId)` of `useSlideStore`: filters the slide out; if
nothing remains, installs one fresh empty slide and selects it; otherwise, if
the deleted slide was selected, selects the first remaining slide.  The
element selection is always cleared. -/
def deleteSlide (now : Nat) (slideId : String) (st : StoreState) : StoreState :=
  match st.slides.filter (fun s => s.id ≠ slideId) with
  | [] =>
    { slides := [freshSlide now],
      currentSlideId := some (freshSlide now).id,
      selectedElementId := none }
  | first :: rest =>
    { slides := first :: rest,
      currentSlideId :=
        if st.currentSlideId = some slideId then some first.id else st.currentSlideId,
      selectedElementId := none }

/-- A `Partial<SlideElement>` argument of `updateElement`: every key may be
present or absent; for the optional properties (`content`, `style`, `zIndex`)
a present key may still carry `undefined`, hence the nested `Option`. -/
structure ElementUpdates where
  id : Option String := none
  type : Option ElemType := none
  x : Option Int := none
  y : Option Int := none
  width : Option Int := none
  height : Option Int := none
  content : Option (Option String) := none
  style : Option (Option ElementStyle) := none
  zIndex : Option (Option Int) := none
deriving DecidableEq, Repr

/-- The spread merge `{ ...element, ...updates }`: every key present in
`updates` overwrites, absent keys are taken from `element`.  Note that a
present `updates.id` overwrites the element's id. -/
def applyUpdates (element : SlideElement) (u : ElementUpdates) : SlideElement :=
  { id := u.id.getD element.id,
    type := u.type.getD element.type,
    x := u.x.getD element.x,
    y := u.y.getD element.y,
    width := u.width.getD element.width,
    height := u.height.getD element.height,
    content := u.content.getD element.content,
    style := u.style.getD element.style,
    zIndex := u.zIndex.getD element.zIndex }

/-- Operation `updateElement(slideId, elementId, updates)` of `useSlideStore`. -/
def updateElement (slideId elementId : String) (u : ElementUpdates) (st : StoreState) :
    StoreState :=
  { st with
    slides := st.slides.map fun slide =>
      if slide.id = slideId then
        { slide with
          elements := slide.elements.map fun element =>
            if element.id = elementId then applyUpdates element u else element }
      else slide }

/-- Reading `el.zIndex || 0`: a missing `zIndex` reads as 0. -/
def zOf (el : SlideElement) : Int :=
  el.zIndex.getD 0

/-- Computation of `Math.max(...)` over a list of integers.  The source spreads the list into
`Math.max`, which yields `-Infinity` on an empty slide — the spec leaves that
case undefined, and every theorem below only evaluates it on non-empty
element lists, where this fold is exactly `Math.max`. -/
def listMax : List Int → Int
  | [] => 0
  | x :: xs => xs.foldl max x

/-- Computation of `Math.min(...)` over a list of integers (empty case as in `listMax`). -/
def listMin : List Int → Int
  | [] => 0
  | x :: xs => xs.foldl min x

/-- The per-slide transform of `bringToFront`: untouched unless the slide id
matches; on the matching slide the element with the given id gets
`zIndex := max + 1`. -/
def bumpSlide (slideId elementId : String) (slide : Slide) : Slide :=
  if slide.id ≠ slideId then slide
  else
    let maxZIndex := listMax (slide.elements.map zOf)
    { slide with
      elements := slide.elements.map fun element =>
        if element.id = elementId then { element with zIndex := some (maxZIndex + 1) }
        else element }

/-- The per-slide transform of `sendToBack`: dual of `bumpSlide` with
`zIndex := min - 1`. -/
def sinkSlide (slideId elementId : String) (slide : Slide) : Slide :=
  if slide.id ≠ slideId then slide
  else
    let minZIndex := listMin (slide.elements.map zOf)
    { slide with
      elements := slide.elements.map fun element =>
        if element.id = elementId then { element with zIndex := some (minZIndex - 1) }
        else element }

/-- Operation `bringToFront(slideId, elementId)` of `useSlideStore`. -/
def bringToFront (slideId elementId : String) (st : StoreState) : StoreState :=
  { st with slides := st.slides.map (bumpSlide slideId elementId) }

/-- Operation `sendToBack(slideId, elementId)` of `useSlideStore`. -/
def sendToBack (slideId elementId : String) (st : StoreState) : StoreState :=
  { st with slides := st.slides.map (sinkSlide slideId elementId) }

/-! ## Persistence layer (`src/utils/presentationStorage.ts`)

The presentation blob in `localStorage` is modelled as `Option JVal`: `none`
when the key is absent, otherwise the JSON value the stored text parses to.
`JSON.stringify` followed by `JSON.parse` is the identity on JSON values, so
serialization is modelled by the JSON encoding itself; `JSON.stringify`
dropping `undefined`-valued properties is modelled by the encoders emitting a
key only when the field is present. -/

/-- A JSON value. -/
inductive JVal where
  | jnull
  | jbool (b : Bool)
  | jnum (n : Int)
  | jstr (s : String)
  | jarr (xs : List JVal)
  | jobj (fields : List (String × JVal))

/-- Property lookup on a parsed JSON object (our encoders never emit duplicate
keys). -/
def jlookup (fields : List (String × JVal)) (k : String) : Option JVal :=
  (fields.find? (fun kv => kv.1 = k)).map (fun kv => kv.2)

/-- Check `typeof v === 'string'` on an accessed property (absent property reads as
`undefined`, which is not a string). -/
def isStringJ : Option JVal → Bool
  | some (.jstr _) => true
  | _ => false

/-- Check `Array.isArray(v)` on an accessed property. -/
def isArrJ : Option JVal → Bool
  | some (.jarr _) => true
  | _ => false

/-- Build a JSON object from a field list in source order, keeping exactly the
present fields (mirrors `JSON.stringify` dropping `undefined` properties). -/
def objOf (fields : List (String × Option JVal)) : JVal :=
  .jobj (fields.filterMap fun kv => kv.2.map fun v => (kv.1, v))

/-- JSON string for an element `type`. -/
def encodeElemType : ElemType → String
  | .text => "text"
  | .image => "image"
  | .shape => "shape"

/-- JSON encoding of `borderRadius: number | string`. -/
def encodeNumOrStr : NumOrStr → JVal
  | .num n => .jnum n
  | .str s => .jstr s

/-- JSON encoding of the `style` record (present fields only, in declaration
order). -/
def encodeStyle (st : ElementStyle) : JVal :=
  objOf
    [("backgroundColor", st.backgroundColor.map .jstr),
     ("color", st.color.map .jstr),
     ("fontSize", st.fontSize.map .jnum),
     ("fontWeight", st.fontWeight.map .jstr),
     ("fontStyle", st.fontStyle.map .jstr),
     ("textDecoration", st.textDecoration.map .jstr),
     ("textAlign", st.textAlign.map .jstr),
     ("borderRadius", st.borderRadius.map encodeNumOrStr)]

/-- JSON encoding of the element object literal built by
`sanitizeSlidesForStorage`:
`{ id, type, x, y, width, height, content, style, zIndex }` in that key
order, with `undefined` fields dropped at stringify time. -/
def encodeElement (e : SlideElement) : JVal :=
  objOf
    [("id", some (.jstr e.id)),
     ("type", some (.jstr (encodeElemType e.type))),
     ("x", some (.jnum e.x)),
     ("y", some (.jnum e.y)),
     ("width", some (.jnum e.width)),
     ("height", some (.jnum e.height)),
     ("content", e.content.map .jstr),
     ("style", e.style.map encodeStyle),
     ("zIndex", e.zIndex.map .jnum)]

/-- JSON encoding of the slide object literal built by
`sanitizeSlidesForStorage`: `{ id, backgroundColor, elements }` in that key
order. -/
def encodeSlide (s : Slide) : JVal :=
  objOf
    [("id", some (.jstr s.id)),
     ("backgroundColor", s.backgroundColor.map .jstr),
     ("elements", some (.jarr (s.elements.map encodeElement)))]

/-- Function `sanitizeSlidesForStorage`: filters out values failing the runtime shape
check (on typed slides, exactly those with a falsy `id`), then rebuilds each
slide and element keeping only the fixed field set.  On the typed `Slide`
record rebuilding with the same fields is the identity, so the data content
of the result is the filtered list; the field restriction lives in the
encoders above. -/
def sanitizeSlidesForStorage (slides : List Slide) : List Slide :=
  (slides.filter slideShapeOk).map fun slide =>
    { id := slide.id,
      backgroundColor := slide.backgroundColor,
      elements := slide.elements.map fun element =>
        { id := element.id,
          type := element.type,
          x := element.x,
          y := element.y,
          width := element.width,
          height := element.height,
          content := element.content,
          style := element.style,
          zIndex := element.zIndex } }

/-- Function `savePresentation(slides)`: sanitizes, serializes and writes the blob
under the fixed key.  The result is the new stored value (write failures,
which the source catches and swallows, are outside the model). -/
def savePresentation (slides : List Slide) : Option JVal :=
  some (.jarr ((sanitizeSlidesForStorage slides).map encodeSlide))

/-- The dynamic validator of `loadPresentation`:
`slide && typeof slide.id === 'string' && Array.isArray(slide.elements)`.
Property access succeeds (as `undefined`) on every JS value except
`null`/`undefined`, which the leading truthiness test rules out; only an
object can have a string `id` and array `elements`. -/
def isValidSlideJ : JVal → Bool
  | .jobj fields => isStringJ (jlookup fields "id") && isArrJ (jlookup fields "elements")
  | _ => false

/-- Function `loadPresentation()`: absent key → `null`; parsed value not an array or
some entry failing `isValidSlide` → `null`; otherwise the parsed entries are
returned as they are (the source casts, it does not rebuild). -/
def loadPresentation (storage : Option JVal) : Option (List JVal) :=
  match storage with
  | none => none
  | some (.jarr slides) => if slides.all isValidSlideJ then some slides else none
  | some _ => none

/-! ## Saved-slide storage (`saveSlideToStorage`)

The stored saved-slide list is modelled directly as a `List SavedSlide` (the
source reads it through `getSavedSlides`, which parses the blob and yields
`[]` on any failure).  A throw is `Except.error`; in that case nothing is
written, so the stored list is unchanged. -/

/-- The `slide.elements.map` of `saveSlideToStorage` with the successive
`Math.random()` draws made explicit: the element at position `i` is copied
with the freshly minted id `element-<now>-<rand i>`. -/
def copyElemsFresh (now : Nat) (rand : Nat → String) : Nat → List SlideElement → List SlideElement
  | _, [] => []
  | i, element :: rest =>
    { element with id := "element-" ++ toString now ++ "-" ++ rand i } ::
      copyElemsFresh now rand (i + 1) rest

/-- Function `saveSlideToStorage(slide, name)`: rejects a duplicate name with a thrown
error (in which case nothing is written, so the stored list stays as it was),
otherwise appends one new `SavedSlide` whose copied slide and elements carry
freshly minted ids, and rewrites the whole list.  `Date.now()` is the
parameter `now`; the `Math.random()` draw used for the i-th element's id is
`rand i`. -/
def saveSlideToStorage (now : Nat) (rand : Nat → String) (slide : Slide) (name : String)
    (stored : List SavedSlide) : Except String (List SavedSlide) :=
  match stored.find? (fun saved => saved.name = name) with
  | some _ =>
    .error ("A slide with the name \x22" ++ name ++ "\x22 already exists")
  | none =>
    let savedSlide : SavedSlide :=
      { id := "saved-" ++ toString now,
        name := name,
        slide :=
          { slide with
            id := "slide-" ++ toString now,
            elements := copyElemsFresh now rand 0 slide.elements },
        createdAt := now }
    .ok (stored ++ [savedSlide])

/-! ## Template population engine (`populateTemplate`)

The source replaces placeholders with
`content.replace(new RegExp(placeholder, "g"), value)`.  The placeholder
strings contain two kinds of regex-relevant characters: braces, which are
literal here (a lone brace that cannot start a quantifier is an ordinary
pattern character in JS), and the dot in the three agent tokens, which is the
regex wildcard matching any character except a line terminator.  A compiled
token is therefore a fixed-length sequence of (literal char | wildcard).
`String.replace` interprets `$` sequences in the replacement string
(`$$`, `$&`, dollar-backquote, dollar-quote); that is `getSubstitution`
below. -/

/-- The JS regex `.`: any char except `\n`, `\r`, U+2028, U+2029. -/
def dotMatches (c : Char) : Bool :=
  c ≠ Char.ofNat 10 && c ≠ Char.ofNat 13 && c ≠ Char.ofNat 0x2028 && c ≠ Char.ofNat 0x2029

/-- Compile a placeholder token into a pattern: every character is a literal
except `.`, the wildcard (`none`). -/
def compilePat (token : String) : List (Option Char) :=
  token.data.map fun c => if c = '.' then none else some c

/-- One pattern character against one input character. -/
def patCharMatches : Option Char → Char → Bool
  | none, c => dotMatches c
  | some a, c => a = c

/-- Does the pattern match a prefix of the input? -/
def matchesAt : List (Option Char) → List Char → Bool
  | [], _ => true
  | _ :: _, [] => false
  | p :: ps, c :: cs => patCharMatches p c && matchesAt ps cs

/-- JS `GetSubstitution`: expand `$` escapes in the replacement string.
`matched` is the matched substring, `before`/`after` the parts of the input
around the match.  With no capture groups in any of our patterns, `$` followed
by a digit stays literal. -/
def getSubstitution (matched before after : List Char) : List Char → List Char
  | [] => []
  | '$' :: d :: rest2 =>
    if d = '$' then '$' :: getSubstitution matched before after rest2
    else if d = '&' then matched ++ getSubstitution matched before after rest2
    else if d = Char.ofNat 96 then before ++ getSubstitution matched before after rest2
    else if d = Char.ofNat 39 then after ++ getSubstitution matched before after rest2
    else
      -- an unrecognised `$` sequence stays literal; `d ≠ '$'` here, so `d`
      -- cannot itself open an escape and may be emitted directly
      '$' :: d :: getSubstitution matched before after rest2
  | c :: rest => c :: getSubstitution matched before after rest

/-- The scan of a global-flag `String.replace`: walk the input left to right;
on a match, emit the substituted replacement and resume after the matched
text, otherwise emit one character and advance.  `pre` is the input already
consumed (needed by the `$`-escapes).  The recursion is driven by a fuel
counter so that the definition is structural: every step consumes at least
one input character (the caller guarantees a non-empty pattern), so fuel
equal to the input length — what `jsReplaceAll` passes — never runs out. -/
def replaceLoop (p : List (Option Char)) (repl : List Char) :
    Nat → List Char → List Char → List Char
  | 0, _, cs => cs
  | _ + 1, _, [] => []
  | fuel + 1, pre, c :: rest =>
    if matchesAt p (c :: rest) then
      getSubstitution ((c :: rest).take p.length) pre ((c :: rest).drop p.length) repl ++
        replaceLoop p repl fuel (pre ++ (c :: rest).take p.length) ((c :: rest).drop p.length)
    else
      c :: replaceLoop p repl fuel (pre ++ [c]) rest

/-- Call `s.replace(new RegExp(token, "g"), value)` for one of the eleven
placeholder tokens (none of which is empty, so the first branch is dead code
guarding the fuel argument). -/
def jsReplaceAll (token value s : String) : String :=
  if compilePat token = [] then s
  else String.mk (replaceLoop (compilePat token) value.data s.data.length [] s.data)

/-- Does the pattern match anywhere (at any suffix) in the input? -/
def hasMatchB (p : List (Option Char)) : List Char → Bool
  | [] => matchesAt p []
  | c :: rest => matchesAt p (c :: rest) || hasMatchB p rest

/-- Method `String.prototype.includes` with a literal search string. -/
def containsLit (t s : String) : Bool :=
  hasMatchB (t.data.map some) s.data

/-- Method `Number.prototype.toLocaleString` grouping (en-US): insert a comma every
three digits from the right.  Input and output are reversed digit lists. -/
def groupRev : List Char → List Char
  | a :: b :: c :: d :: rest => a :: b :: c :: ',' :: groupRev (d :: rest)
  | l => l

/-- Call `n.toLocaleString()` for an integer JS number (e.g. `3200 → "3,200"`). -/
def intToLocaleString (n : Int) : String :=
  (if n < 0 then "-" else "") ++ String.mk (groupRev (toString n.natAbs).data.reverse).reverse

/-- The `replacements` record of `populateTemplate`, in the source's property
insertion order (which is the order `Object.entries` iterates). -/
def replacements (data : RealEstateData) : List (String × String) :=
  [("\x7b\x7baddress\x7d\x7d", data.address),
   ("\x7b\x7bprice\x7d\x7d", data.price),
   ("\x7b\x7bbedrooms\x7d\x7d", toString data.bedrooms),
   ("\x7b\x7bbathrooms\x7d\x7d", toString data.bathrooms),
   ("\x7b\x7bsqft\x7d\x7d", intToLocaleString data.sqft),
   ("\x7b\x7byearBuilt\x7d\x7d", toString data.yearBuilt),
   ("\x7b\x7bpropertyType\x7d\x7d", data.propertyType),
   ("\x7b\x7bdescription\x7d\x7d", data.description),
   ("\x7b\x7bagent.name\x7d\x7d", data.agent.name),
   ("\x7b\x7bagent.phone\x7d\x7d", data.agent.phone),
   ("\x7b\x7bagent.email\x7d\x7d", data.agent.email)]

/-- The text branch of `populateTemplate`: the `Object.entries(replacements)
.forEach` loop, i.e. a sequential fold applying one global replace per token. -/
def populateContent (data : RealEstateData) (content : String) : String :=
  (replacements data).foldl (fun acc pv => jsReplaceAll pv.1 pv.2 acc) content

/-- Call `parseInt` on the captured digit string of the image placeholder. -/
def digitsToNat (ds : List Char) : Nat :=
  ds.foldl (fun a c => a * 10 + (c.toNat - 48)) 0

/-- Try to match `/{{images\[(\d+)\]}}/` at the head of the input: the
literal opener, one or more digits (maximal — a shorter digit run cannot be
followed by `]`), then the literal closer.  Returns the parsed index. -/
def tryImageAt (cs : List Char) : Option Nat :=
  if cs.take 9 = "\x7b\x7bimages[".data then
    let afterOpen := cs.drop 9
    let ds := afterOpen.takeWhile Char.isDigit
    if !ds.isEmpty && (afterOpen.drop ds.length).take 3 = "]\x7d\x7d".data then
      some (digitsToNat ds)
    else none
  else none

/-- Call `content.match` with the image-placeholder regex: the leftmost match's captured
index, if any. -/
def findImageIdx : List Char → Option Nat
  | [] => none
  | c :: rest =>
    match tryImageAt (c :: rest) with
    | some n => some n
    | none => findImageIdx rest

/-- Check `element.content.includes` of the literal image-placeholder opener. -/
def containsImagesOpen (c : String) : Bool :=
  containsLit "\x7b\x7bimages[" c

/-- The per-element transform inside `populateTemplate`'s `map`. -/
def populateElement (data : RealEstateData) (element : SlideElement) : SlideElement :=
  match element.content with
  | none => element
  | some c =>
    if c = "" then element
    else
      let populatedContent :=
        if element.type == ElemType.image && containsImagesOpen c then
          match findImageIdx c.data with
          | some imageIndex =>
            match data.images.get? imageIndex with
            | some url => if url ≠ "" then url else c
            | none => c
          | none => c
        else populateContent data c
      { element with content := some populatedContent }

/-- Function `populateTemplate(slide, data)` of the template population engine. -/
def populateTemplate (slide : Slide) (data : RealEstateData) : Slide :=
  { slide with elements := slide.elements.map (populateElement data) }

/-! ## Concrete example data used by individual theorems -/

/-- A plain text element `e1` (C8 examples). -/
def exElemC8 : SlideElement :=
  { id := "e1", type := ElemType.text, x := 0, y := 0, width := 10, height := 10 }

/-- A one-slide state holding `exElemC8`, slide `s1` selected (C8 examples). -/
def exStateC8 : StoreState :=
  { slides := [{ id := "s1", elements := [exElemC8] }], currentSlideId := some "s1" }

/-- Element `e1` with z-index 3 (C7 example). -/
def exElemC7a : SlideElement :=
  { id := "e1", type := ElemType.text, x := 0, y := 0, width := 10, height := 10,
    zIndex := some 3 }

/-- Element `e2` with no z-index (C7 example). -/
def exElemC7b : SlideElement :=
  { id := "e2", type := ElemType.shape, x := 5, y := 5, width := 20, height := 20 }

/-- A one-slide state holding the two C7 elements. -/
def exStateC7 : StoreState :=
  { slides := [{ id := "s1", elements := [exElemC7a, exElemC7b] }],
    currentSlideId := some "s1", selectedElementId := some "e1" }

/-- A stored `SavedSlide` named Cover (C6 example). -/
def exSavedC6 : SavedSlide :=
  { id := "saved-1", name := "Cover",
    slide := { id := "slide-10", elements := [] }, createdAt := 1 }

/-- Real-estate data with agent name Alice and no images (C3 examples). -/
def exDataC3 : RealEstateData :=
  { address := "742 Evergreen Terrace", price := "$1,000", bedrooms := 1, bathrooms := 1,
    sqft := 1500, yearBuilt := 2000, propertyType := "House", description := "Nice",
    agent := { name := "Alice", phone := "555-0100", email := "alice@realty.test" },
    images := [] }

/-- A text element whose content is the non-token `{{agentXname}}` (C3
counterexample: no exact placeholder token occurs in it). -/
def exElemC3 : SlideElement :=
  { id := "e1", type := ElemType.text, x := 0, y := 0, width := 100, height := 40,
    content := some "\x7b\x7bagentXname\x7d\x7d" }

/-- A text element with plain, token-free content (C3 witness). -/
def exElemC3w : SlideElement :=
  { id := "e2", type := ElemType.text, x := 0, y := 0, width := 100, height := 40,
    content := some "Hello world." }

/-- Real-estate data whose single image URL is the empty string (C4
counterexample). -/
def exDataC4 : RealEstateData :=
  { address := "1 Way", price := "$2", bedrooms := 2, bathrooms := 2,
    sqft := 900, yearBuilt := 1990, propertyType := "Condo", description := "Ok",
    agent := { name := "Bob", phone := "555-0101", email := "bob@realty.test" },
    images := [""] }

/-- An image element holding the placeholder `{{images[0]}}` (C4
counterexample). -/
def exElemC4 : SlideElement :=
  { id := "e3", type := ElemType.image, x := 0, y := 0, width := 100, height := 100,
    content := some "\x7b\x7bimages[0]\x7d\x7d" }

/-- Real-estate data with two image URLs (C4 witness). -/
def exDataC4w : RealEstateData :=
  { address := "2 Way", price := "$3", bedrooms := 3, bathrooms := 2,
    sqft := 1200, yearBuilt := 1985, propertyType := "House", description := "Good",
    agent := { name := "Eve", phone := "555-0102", email := "eve@realty.test" },
    images := ["a.jpg", "b.jpg"] }

/-- An image element holding the placeholder `{{images[1]}}` (C4 witness). -/
def exElemC4w : SlideElement :=
  { id := "e4", type := ElemType.image, x := 0, y := 0, width := 100, height := 100,
    content := some "\x7b\x7bimages[1]\x7d\x7d" }

/-! ## Theorems about the Document Store -/

/-- C1.  For every slide sequence and every id, `deleteSlide` yields a
non-empty slide sequence; in particular, when the sequence is exactly one
slide carrying the given id, the result is a single fresh empty slide
(generated id `slide-<now>`, empty elements, white background) which becomes
the selected slide, with the element selection cleared. -/
theorem deleteSlide_never_empty (now : Nat) (slideId : String) (st : StoreState) :
    (deleteSlide now slideId st).slides ≠ [] ∧
    (∀ sl : Slide, st.slides = [sl] → sl.id = slideId →
      (deleteSlide now slideId st).slides = [freshSlide now] ∧
      (deleteSlide now slideId st).currentSlideId = some (freshSlide now).id ∧
      (deleteSlide now slideId st).selectedElementId = none) := by
  constructor
  · unfold deleteSlide
    cases hf : st.slides.filter (fun s => s.id ≠ slideId) <;> simp
  · intro sl hslides hid
    have hf : st.slides.filter (fun s => s.id ≠ slideId) = [] := by
      simp [hslides, hid]
    unfold deleteSlide
    rw [hf]
    exact ⟨rfl, rfl, rfl⟩

theorem deleteSlide_never_empty_witness :
    (deleteSlide 42 "slide-1"
        { slides := [{ id := "slide-1", elements := [] }],
          currentSlideId := some "slide-1" }).slides = [freshSlide 42] ∧
    (deleteSlide 42 "slide-1"
        { slides := [{ id := "slide-1", elements := [] }],
          currentSlideId := some "slide-1" }).currentSlideId = some (freshSlide 42).id ∧
    (deleteSlide 42 "slide-1"
        { slides := [{ id := "slide-1", elements := [] }],
          currentSlideId := some "slide-1" }).selectedElementId = none :=
  (deleteSlide_never_empty 42 "slide-1"
      { slides := [{ id := "slide-1", elements := [] }],
        currentSlideId := some "slide-1" }).2
    { id := "slide-1", elements := [] } rfl rfl

/-- C5.  A template lacking an `id` or lacking an `elements` array is
rejected by `addSlide` with no state change at all: slides, selected slide
and selected element are untouched. -/
theorem addSlide_invalid_template_noop (now : Nat) (t : TemplateLike) (st : StoreState)
    (h : t.id = none ∨ t.elements = none) :
    addSlide now (some t) st = st := by
  have hv : templateValid t = false := by
    rcases h with h | h <;> simp [templateValid, h]
  simp [addSlide, hv]

theorem addSlide_invalid_template_noop_witness :
    addSlide 7 (some { id := some "template-1" })
        { slides := [{ id := "slide-1", elements := [] }],
          currentSlideId := some "slide-1" } =
      { slides := [{ id := "slide-1", elements := [] }],
        currentSlideId := some "slide-1" } :=
  addSlide_invalid_template_noop 7 { id := some "template-1" }
    { slides := [{ id := "slide-1", elements := [] }],
      currentSlideId := some "slide-1" }
    (Or.inr rfl)

/-- C9.  Deleting a slide that is not the last one removes exactly the slides
carrying that id; if the deleted slide was selected, the slide at index 0 of
the post-removal sequence becomes selected (positional choice); otherwise the
selection is untouched; the element selection is always cleared. -/
theorem deleteSlide_selects_first_remaining (now : Nat) (slideId : String) (st : StoreState)
    (hin : ∃ a ∈ st.slides, a.id = slideId)
    (hother : ∃ b ∈ st.slides, b.id ≠ slideId) :
    ∃ first rest,
      st.slides.filter (fun s => s.id ≠ slideId) = first :: rest ∧
      (deleteSlide now slideId st).slides = first :: rest ∧
      (st.currentSlideId = some slideId →
        (deleteSlide now slideId st).currentSlideId = some first.id) ∧
      (st.currentSlideId ≠ some slideId →
        (deleteSlide now slideId st).currentSlideId = st.currentSlideId) ∧
      (deleteSlide now slideId st).selectedElementId = none := by
  obtain ⟨b, hbmem, hbid⟩ := hother
  have hbf : b ∈ st.slides.filter (fun s => s.id ≠ slideId) := by
    simp only [List.mem_filter, decide_eq_true_eq]
    exact ⟨hbmem, hbid⟩
  cases hf : st.slides.filter (fun s => s.id ≠ slideId) with
  | nil => rw [hf] at hbf; cases hbf
  | cons first rest =>
    refine ⟨first, rest, rfl, ?_, ?_, ?_, ?_⟩
    · unfold deleteSlide
      rw [hf]
    · intro h
      unfold deleteSlide
      rw [hf]
      simp [h]
    · intro h
      unfold deleteSlide
      rw [hf]
      simp [h]
    · unfold deleteSlide
      rw [hf]

theorem deleteSlide_selects_first_remaining_witness :
    ∃ first rest,
      ([{ id := "slide-1", elements := [] }, { id := "slide-2", elements := [] },
          { id := "slide-3", elements := [] }] : List Slide).filter
          (fun s => s.id ≠ "slide-2") = first :: rest ∧
      (deleteSlide 99 "slide-2"
          { slides := [{ id := "slide-1", elements := [] }, { id := "slide-2", elements := [] },
              { id := "slide-3", elements := [] }],
            currentSlideId := some "slide-2" }).slides = first :: rest ∧
      ((some "slide-2" : Option String) = some "slide-2" →
        (deleteSlide 99 "slide-2"
            { slides := [{ id := "slide-1", elements := [] }, { id := "slide-2", elements := [] },
                { id := "slide-3", elements := [] }],
              currentSlideId := some "slide-2" }).currentSlideId = some first.id) ∧
      ((some "slide-2" : Option String) ≠ some "slide-2" →
        (deleteSlide 99 "slide-2"
            { slides := [{ id := "slide-1", elements := [] }, { id := "slide-2", elements := [] },
                { id := "slide-3", elements := [] }],
              currentSlideId := some "slide-2" }).currentSlideId = some "slide-2") ∧
      (deleteSlide 99 "slide-2"
          { slides := [{ id := "slide-1", elements := [] }, { id := "slide-2", elements := [] },
              { id := "slide-3", elements := [] }],
            currentSlideId := some "slide-2" }).selectedElementId = none :=
  deleteSlide_selects_first_remaining 99 "slide-2"
    { slides := [{ id := "slide-1", elements := [] }, { id := "slide-2", elements := [] },
        { id := "slide-3", elements := [] }],
      currentSlideId := some "slide-2" }
    ⟨{ id := "slide-2", elements := [] }, by simp, rfl⟩
    ⟨{ id := "slide-1", elements := [] }, by simp, by decide⟩

/-- C8 counterexample.  `updateElement`'s spread merge `{...element, ...updates}`
lets an update map that carries an `id` key overwrite the matched element's
id: on a slide `s1` holding the single element `e1`, the call
`updateElement("s1", "e1", {id: "e2"})` renames the element to `e2`, so an
element's id is not immutable under the Document Store's operations. -/
theorem updateElement_id_overwrite_counterexample :
    ((updateElement "s1" "e1" { id := some "e2" } exStateC8).slides.map
        (fun s => s.elements.map (fun e => e.id))) = [["e2"]] ∧
    "e2" ≠ "e1" := by
  constructor
  · rfl
  · decide

/-- C8 (amended).  As long as the partial-update map does not carry an `id`
key, `updateElement` preserves every element id in the state — in particular
the matched element keeps the id `elementId`. -/
theorem updateElement_preserves_ids (slideId elementId : String) (u : ElementUpdates)
    (st : StoreState) (h : u.id = none) :
    (updateElement slideId elementId u st).slides.map (fun s => s.elements.map (fun e => e.id)) =
      st.slides.map (fun s => s.elements.map (fun e => e.id)) := by
  unfold updateElement
  simp only [List.map_map]
  apply List.map_congr_left
  intro slide _
  simp only [Function.comp_apply]
  split
  · simp only [List.map_map]
    apply List.map_congr_left
    intro element _
    simp only [Function.comp_apply]
    split
    · simp [applyUpdates, h]
    · rfl
  · rfl

theorem updateElement_preserves_ids_witness :
    (updateElement "s1" "e1" { x := some 5 } exStateC8).slides.map
        (fun s => s.elements.map (fun e => e.id)) =
      exStateC8.slides.map (fun s => s.elements.map (fun e => e.id)) :=
  updateElement_preserves_ids "s1" "e1" { x := some 5 } exStateC8 rfl

/-! ### Z-order lemmas (C7) -/

theorem le_foldl_max (a : Int) (l : List Int) :
    a ≤ l.foldl max a ∧ ∀ x ∈ l, x ≤ l.foldl max a := by
  induction l generalizing a with
  | nil => simp
  | cons b l ih =>
    obtain ⟨ih1, ih2⟩ := ih (max a b)
    refine ⟨le_trans (le_max_left a b) ih1, ?_⟩
    intro x hx
    rcases List.mem_cons.mp hx with rfl | hx
    · exact le_trans (le_max_right a x) ih1
    · exact ih2 x hx

theorem mem_le_listMax (x : Int) (xs : List Int) (h : x ∈ xs) : x ≤ listMax xs := by
  cases xs with
  | nil => cases h
  | cons y ys =>
    rcases List.mem_cons.mp h with rfl | h
    · exact (le_foldl_max x ys).1
    · exact (le_foldl_max y ys).2 x h

theorem bumpSlide_id (slideId elementId : String) (slide : Slide) :
    (bumpSlide slideId elementId slide).id = slide.id := by
  unfold bumpSlide
  split <;> rfl

theorem sinkSlide_id (slideId elementId : String) (slide : Slide) :
    (sinkSlide slideId elementId slide).id = slide.id := by
  unfold sinkSlide
  split <;> rfl

theorem bumpSlide_element_ids (slideId elementId : String) (slide : Slide) :
    (bumpSlide slideId elementId slide).elements.map (fun e => e.id) =
      slide.elements.map (fun e => e.id) := by
  unfold bumpSlide
  split
  · rfl
  · rw [List.map_map]
    apply List.map_congr_left
    intro element _
    simp only [Function.comp_apply]
    split <;> rfl

theorem sinkSlide_element_ids (slideId elementId : String) (slide : Slide) :
    (sinkSlide slideId elementId slide).elements.map (fun e => e.id) =
      slide.elements.map (fun e => e.id) := by
  unfold sinkSlide
  split
  · rfl
  · rw [List.map_map]
    apply List.map_congr_left
    intro element _
    simp only [Function.comp_apply]
    split <;> rfl

/-- Transfer of "some element carries this id" along an id-preserving
element-list rewrite. -/
theorem exists_id_of_map_ids_eq {l l' : List SlideElement}
    (h : l'.map (fun e => e.id) = l.map (fun e => e.id)) (elementId : String)
    (he : ∃ e ∈ l, e.id = elementId) : ∃ e ∈ l', e.id = elementId := by
  obtain ⟨e, hmem, hid⟩ := he
  have : elementId ∈ l'.map (fun e => e.id) := by
    rw [h]
    exact List.mem_map.mpr ⟨e, hmem, hid⟩
  obtain ⟨e', hmem', hid'⟩ := List.mem_map.mp this
  exact ⟨e', hmem', hid'⟩

/-- After `bumpSlide` on the matching slide, every element carrying the
target id sits strictly above every element that does not. -/
theorem bumpSlide_dominates (slideId elementId : String) (slide : Slide)
    (hid : slide.id = slideId) (he : ∃ e ∈ slide.elements, e.id = elementId) :
    ∃ e1 ∈ (bumpSlide slideId elementId slide).elements, e1.id = elementId ∧
      ∀ e2 ∈ (bumpSlide slideId elementId slide).elements, e2.id ≠ elementId →
        zOf e2 < zOf e1 := by
  obtain ⟨e, hmem, heid⟩ := he
  have hcond : ¬ slide.id ≠ slideId := by simp [hid]
  unfold bumpSlide
  rw [if_neg hcond]
  simp only []
  refine ⟨{ e with zIndex := some (listMax (slide.elements.map zOf) + 1) }, ?_, heid, ?_⟩
  · refine List.mem_map.mpr ⟨e, hmem, ?_⟩
    rw [if_pos heid]
  · intro e2 hmem2 hne2
    obtain ⟨b, hbmem, hbeq⟩ := List.mem_map.mp hmem2
    by_cases hb : b.id = elementId
    · exfalso
      rw [if_pos hb] at hbeq
      apply hne2
      rw [← hbeq]
      exact hb
    · rw [if_neg hb] at hbeq
      subst hbeq
      have hle : zOf b ≤ listMax (slide.elements.map zOf) :=
        mem_le_listMax (zOf b) _ (List.mem_map.mpr ⟨b, hbmem, rfl⟩)
      have : zOf { e with zIndex := some (listMax (slide.elements.map zOf) + 1) } =
          listMax (slide.elements.map zOf) + 1 := rfl
      rw [this]
      omega

/-- C7.  `bringToFront; sendToBack; bringToFront` on the same element, with no
other operation in between, leaves that element with a `zIndex` strictly
greater than the `zIndex` (absent read as 0) of every other element of the
slide. -/
theorem bringToFront_sendToBack_bringToFront_dominates (st : StoreState)
    (slideId elementId : String) (sl : Slide)
    (hmem : sl ∈ st.slides) (hid : sl.id = slideId)
    (he : ∃ e ∈ sl.elements, e.id = elementId) :
    ∃ sl' ∈ (bringToFront slideId elementId
        (sendToBack slideId elementId (bringToFront slideId elementId st))).slides,
      sl'.id = slideId ∧
      ∃ e1 ∈ sl'.elements, e1.id = elementId ∧
        ∀ e2 ∈ sl'.elements, e2.id ≠ elementId → zOf e2 < zOf e1 := by
  have hslides :
      (bringToFront slideId elementId
          (sendToBack slideId elementId (bringToFront slideId elementId st))).slides =
        st.slides.map (fun s =>
          bumpSlide slideId elementId
            (sinkSlide slideId elementId (bumpSlide slideId elementId s))) := by
    simp [bringToFront, sendToBack, List.map_map, Function.comp]
  set sl2 := sinkSlide slideId elementId (bumpSlide slideId elementId sl) with hsl2
  have hid2 : sl2.id = slideId := by
    rw [hsl2, sinkSlide_id, bumpSlide_id, hid]
  have he2 : ∃ e ∈ sl2.elements, e.id = elementId := by
    apply exists_id_of_map_ids_eq (l := (bumpSlide slideId elementId sl).elements)
    · rw [hsl2]
      exact sinkSlide_element_ids slideId elementId _
    · exact exists_id_of_map_ids_eq (bumpSlide_element_ids slideId elementId sl) elementId he
  refine ⟨bumpSlide slideId elementId sl2, ?_, ?_, ?_⟩
  · rw [hslides]
    exact List.mem_map.mpr ⟨sl, hmem, rfl⟩
  · rw [bumpSlide_id, hid2]
  · exact bumpSlide_dominates slideId elementId sl2 hid2 he2

theorem bringToFront_sendToBack_bringToFront_dominates_witness :
    ∃ sl' ∈ (bringToFront "s1" "e1"
        (sendToBack "s1" "e1" (bringToFront "s1" "e1" exStateC7))).slides,
      sl'.id = "s1" ∧
      ∃ e1 ∈ sl'.elements, e1.id = "e1" ∧
        ∀ e2 ∈ sl'.elements, e2.id ≠ "e1" → zOf e2 < zOf e1 :=
  bringToFront_sendToBack_bringToFront_dominates exStateC7 "s1" "e1"
    { id := "s1", elements := [exElemC7a, exElemC7b] }
    (by simp [exStateC7]) rfl ⟨exElemC7a, by simp, rfl⟩

/-! ### Saved-slide storage (C6) -/

theorem copyElemsFresh_ids (now : Nat) (rand : Nat → String) :
    ∀ (l : List SlideElement) (i : Nat), ∀ e ∈ copyElemsFresh now rand i l,
      ∃ j : Nat, e.id = "element-" ++ toString now ++ "-" ++ rand j := by
  intro l
  induction l with
  | nil => intro i e he; cases he
  | cons a rest ih =>
    intro i e he
    rcases List.mem_cons.mp he with rfl | he
    · exact ⟨i, rfl⟩
    · exact ih (i + 1) e he

theorem copyElemsFresh_fields (now : Nat) (rand : Nat → String) :
    ∀ (l : List SlideElement) (i : Nat),
      (copyElemsFresh now rand i l).map
          (fun e => (e.type, e.x, e.y, e.width, e.height, e.content, e.style, e.zIndex)) =
        l.map (fun e => (e.type, e.x, e.y, e.width, e.height, e.content, e.style, e.zIndex)) := by
  intro l
  induction l with
  | nil => intro i; rfl
  | cons a rest ih =>
    intro i
    simp only [copyElemsFresh, List.map_cons, ih (i + 1)]

/-- C6.  `saveSlideToStorage` throws when the stored list already holds a
`SavedSlide` with the requested name (and, throwing before any write, leaves
the persisted list unchanged); with a fresh name it rewrites the list as the
old list plus exactly one appended `SavedSlide`, which carries the requested
name, a freshly minted own id and slide id, the copied background color,
elements equal to the original's in every field except their ids, and fresh
ids of the minted `element-<now>-<random>` form for all elements. -/
theorem saveSlideToStorage_collision_or_append (now : Nat) (rand : Nat → String)
    (slide : Slide) (name : String) (stored : List SavedSlide) :
    ((∃ saved ∈ stored, saved.name = name) →
      ∃ msg, saveSlideToStorage now rand slide name stored = .error msg) ∧
    ((∀ saved ∈ stored, saved.name ≠ name) →
      ∃ newSaved : SavedSlide,
        saveSlideToStorage now rand slide name stored = .ok (stored ++ [newSaved]) ∧
        newSaved.name = name ∧
        newSaved.id = "saved-" ++ toString now ∧
        newSaved.createdAt = now ∧
        newSaved.slide.id = "slide-" ++ toString now ∧
        newSaved.slide.backgroundColor = slide.backgroundColor ∧
        (∀ e ∈ newSaved.slide.elements,
          ∃ j : Nat, e.id = "element-" ++ toString now ++ "-" ++ rand j) ∧
        newSaved.slide.elements.map
            (fun e => (e.type, e.x, e.y, e.width, e.height, e.content, e.style, e.zIndex)) =
          slide.elements.map
            (fun e => (e.type, e.x, e.y, e.width, e.height, e.content, e.style, e.zIndex))) := by
  constructor
  · intro ⟨saved, hmem, hname⟩
    have hsome : (stored.find? (fun saved => saved.name = name)).isSome := by
      rw [List.find?_isSome]
      exact ⟨saved, hmem, by simp [hname]⟩
    obtain ⟨v, hv⟩ := Option.isSome_iff_exists.mp hsome
    unfold saveSlideToStorage
    rw [hv]
    exact ⟨_, rfl⟩
  · intro hnone
    have hfind : stored.find? (fun saved => saved.name = name) = none := by
      rw [List.find?_eq_none]
      intro saved hmem
      simp [hnone saved hmem]
    unfold saveSlideToStorage
    rw [hfind]
    refine ⟨_, rfl, rfl, rfl, rfl, rfl, rfl, ?_, ?_⟩
    · exact copyElemsFresh_ids now rand slide.elements 0
    · exact copyElemsFresh_fields now rand slide.elements 0

theorem saveSlideToStorage_collision_or_append_witness :
    (∃ msg, saveSlideToStorage 5 (fun _ => "r") { id := "slide-10", elements := [] }
        "Cover" [exSavedC6] = .error msg) ∧
    (∃ newSaved : SavedSlide,
      saveSlideToStorage 5 (fun _ => "r") { id := "slide-10", elements := [] }
          "Back" [exSavedC6] = .ok ([exSavedC6] ++ [newSaved]) ∧
      newSaved.name = "Back" ∧
      newSaved.id = "saved-" ++ toString 5 ∧
      newSaved.createdAt = 5 ∧
      newSaved.slide.id = "slide-" ++ toString 5 ∧
      newSaved.slide.backgroundColor = none ∧
      (∀ e ∈ newSaved.slide.elements,
        ∃ j : Nat, e.id = "element-" ++ toString 5 ++ "-" ++ (fun _ : Nat => "r") j) ∧
      newSaved.slide.elements.map
          (fun e => (e.type, e.x, e.y, e.width, e.height, e.content, e.style, e.zIndex)) =
        ([] : List SlideElement).map
          (fun e => (e.type, e.x, e.y, e.width, e.height, e.content, e.style, e.zIndex))) := by
  constructor
  · exact (saveSlideToStorage_collision_or_append 5 (fun _ => "r")
      { id := "slide-10", elements := [] } "Cover" [exSavedC6]).1
      ⟨exSavedC6, by simp, rfl⟩
  · exact (saveSlideToStorage_collision_or_append 5 (fun _ => "r")
      { id := "slide-10", elements := [] } "Back" [exSavedC6]).2
      (by intro saved hmem; simp only [List.mem_singleton] at hmem; subst hmem; decide)

/-! ### Persistence layer (C2, C10) -/

/-- On typed slides, rebuilding a record with its own fields is the identity,
so `sanitizeSlidesForStorage` is exactly the shape-check filter; the
restriction to the fixed field set is carried by the JSON encoders. -/
theorem sanitize_eq_filter (slides : List Slide) :
    sanitizeSlidesForStorage slides = slides.filter slideShapeOk := by
  unfold sanitizeSlidesForStorage
  have he : (fun (element : SlideElement) =>
      ({ id := element.id, type := element.type, x := element.x, y := element.y,
         width := element.width, height := element.height, content := element.content,
         style := element.style, zIndex := element.zIndex } : SlideElement)) = id :=
    funext fun _ => rfl
  simp only [he, List.map_id]
  have hs : (fun (slide : Slide) =>
      ({ id := slide.id, backgroundColor := slide.backgroundColor,
         elements := slide.elements } : Slide)) = id :=
    funext fun _ => rfl
  simp only [hs, List.map_id]

/-- Every slide emitted by the sanitizing encoder passes `loadPresentation`'s
dynamic validator: the encoded object always carries a string `id` and an
array `elements`. -/
theorem isValidSlideJ_encodeSlide (s : Slide) : isValidSlideJ (encodeSlide s) = true := by
  cases hb : s.backgroundColor <;>
    simp [encodeSlide, objOf, isValidSlideJ, jlookup, isStringJ, isArrJ, hb, List.find?]

/-- C10.  `savePresentation` persists exactly the input slides passing the
shape check (`slide.id` truthy), each reduced to the fixed field set by the
encoder; a slide with an empty-string id — which `loadPresentation`'s own
validator would happily accept, as the second conjunct shows — is silently
omitted from the persisted presentation, as the third conjunct shows on a
concrete input. -/
theorem savePresentation_persists_shape_checked (slides : List Slide) :
    savePresentation slides =
      some (.jarr ((slides.filter slideShapeOk).map encodeSlide)) ∧
    isValidSlideJ (encodeSlide { id := "", elements := [] }) = true ∧
    savePresentation [{ id := "", elements := [] }] = some (.jarr []) := by
  refine ⟨?_, isValidSlideJ_encodeSlide _, ?_⟩
  · unfold savePresentation
    rw [sanitize_eq_filter]
  · rfl

/-- C2 counterexample.  The slide `{id: "", elements: []}` is well-formed in
the claim's sense (a string id and an array of elements) and survives
`loadPresentation`'s validator, yet `savePresentation` drops it, so the
round-trip returns zero slides for a one-slide input: no equality
"field-for-field modulo stripping of extraneous fields" can hold. -/
theorem roundtrip_drops_empty_id_counterexample :
    (loadPresentation (savePresentation [{ id := "", elements := [] }])).map List.length =
      some 0 ∧
    ([{ id := "", elements := [] }] : List Slide).length = 1 := by
  exact ⟨rfl, rfl⟩

/-- C2 (amended).  For slide sequences in which every slide's id is truthy
(non-empty) — in addition to the claim's well-formedness — loading after
saving returns exactly the sanitized JSON encodings of the input slides,
which agree with the input field-for-field on the fixed slide/element field
set; a slide with an empty id is instead dropped by the save-side shape
check. -/
theorem loadPresentation_savePresentation_roundtrip (S : List Slide)
    (h : ∀ s ∈ S, s.id ≠ "") :
    loadPresentation (savePresentation S) = some (S.map encodeSlide) := by
  have hf : S.filter slideShapeOk = S := by
    rw [List.filter_eq_self]
    intro s hs
    simp [slideShapeOk, h s hs]
  unfold savePresentation loadPresentation
  rw [sanitize_eq_filter, hf]
  have hall : (S.map encodeSlide).all isValidSlideJ = true := by
    rw [List.all_eq_true]
    intro sj hsj
    obtain ⟨s, _, rfl⟩ := List.mem_map.mp hsj
    exact isValidSlideJ_encodeSlide s
  simp [hall]

theorem loadPresentation_savePresentation_roundtrip_witness :
    loadPresentation (savePresentation
        [{ id := "slide-1", elements := [exElemC8], backgroundColor := some "#ffffff" }]) =
      some ([{ id := "slide-1", elements := [exElemC8],
               backgroundColor := some "#ffffff" }].map encodeSlide) :=
  loadPresentation_savePresentation_roundtrip
    [{ id := "slide-1", elements := [exElemC8], backgroundColor := some "#ffffff" }]
    (by intro s hs; simp only [List.mem_singleton] at hs; subst hs; decide)

/-! ### Template population engine (C3, C4) -/

theorem replaceLoop_no_match (p : List (Option Char)) (repl : List Char) :
    ∀ (fuel : Nat) (cs pre : List Char), hasMatchB p cs = false →
      replaceLoop p repl fuel pre cs = cs := by
  intro fuel
  induction fuel with
  | zero => intro cs pre _; rfl
  | succ fuel ih =>
    intro cs pre h
    cases cs with
    | nil => rfl
    | cons c rest =>
      simp only [hasMatchB, Bool.or_eq_false_iff] at h
      rw [replaceLoop, if_neg (by simp [h.1]), ih rest (pre ++ [c]) h.2]

theorem jsReplaceAll_no_match (token value s : String)
    (h : hasMatchB (compilePat token) s.data = false) :
    jsReplaceAll token value s = s := by
  unfold jsReplaceAll
  split
  · rfl
  · rw [replaceLoop_no_match _ _ s.data.length s.data [] h]

theorem populateContent_no_match (data : RealEstateData) (c : String)
    (h : ∀ pv ∈ replacements data, hasMatchB (compilePat pv.1) c.data = false) :
    populateContent data c = c := by
  unfold populateContent
  have hgen : ∀ L : List (String × String),
      (∀ pv ∈ L, hasMatchB (compilePat pv.1) c.data = false) →
      L.foldl (fun acc pv => jsReplaceAll pv.1 pv.2 acc) c = c := by
    intro L
    induction L with
    | nil => intro _; rfl
    | cons pv L ih =>
      intro hL
      rw [List.foldl_cons, jsReplaceAll_no_match _ _ _ (hL pv (List.mem_cons_self pv L))]
      exact ih fun q hq => hL q (List.mem_cons_of_mem pv hq)
  exact hgen _ h

/-- C3 (amended).  For every element processed by `populateTemplate` whose
content is non-empty and which does not take the image branch, the output
element equals the input except that its content is `populateContent`: the
sequential application, for each of the eleven tokens in their fixed order,
of a global find-and-replace in which the token is matched as a regular
expression — so the `.` of the three agent tokens matches any single
non-line-terminator character — and the data value is substituted under
JavaScript `$`-escape rules.  In particular a content string in which none of
the eleven token patterns matches anywhere is returned unchanged (matching a
pattern, not merely containing an exact token, is what triggers change). -/
theorem populateTemplate_text_branch (data : RealEstateData) (slide : Slide)
    (element : SlideElement) (c : String)
    (hmem : element ∈ slide.elements)
    (hc : element.content = some c) (hne : c ≠ "")
    (hnotimg : (element.type == ElemType.image && containsImagesOpen c) = false) :
    ∃ element' ∈ (populateTemplate slide data).elements,
      element'.content = some (populateContent data c) ∧
      { element' with content := element.content } = element ∧
      ((∀ pv ∈ replacements data, hasMatchB (compilePat pv.1) c.data = false) →
        element' = element) := by
  obtain ⟨eid, etype, ex, ey, ew, eht, econt, esty, ez⟩ := element
  change econt = some c at hc
  subst hc
  change (etype == ElemType.image && containsImagesOpen c) = false at hnotimg
  have hpe : populateElement data ⟨eid, etype, ex, ey, ew, eht, some c, esty, ez⟩ =
      ⟨eid, etype, ex, ey, ew, eht, some (populateContent data c), esty, ez⟩ := by
    unfold populateElement
    simp [hne, hnotimg]
  refine ⟨_, List.mem_map.mpr ⟨_, hmem, rfl⟩, ?_, ?_, ?_⟩
  · rw [hpe]
  · rw [hpe]
  · intro hnm
    rw [hpe, populateContent_no_match data c hnm]

theorem populateTemplate_text_branch_witness :
    ∃ element' ∈ (populateTemplate { id := "s9", elements := [exElemC3w] } exDataC3).elements,
      element'.content = some (populateContent exDataC3 "Hello world.") ∧
      { element' with content := exElemC3w.content } = exElemC3w ∧
      ((∀ pv ∈ replacements exDataC3,
          hasMatchB (compilePat pv.1) "Hello world.".data = false) →
        element' = exElemC3w) :=
  populateTemplate_text_branch exDataC3 { id := "s9", elements := [exElemC3w] }
    exElemC3w "Hello world." (by simp) rfl (by decide) rfl

/-- C3 counterexample.  The content `{{agentXname}}` contains none of the
eleven exact placeholder tokens as a substring (second conjunct), so by the
claim it must come through `populateTemplate` verbatim; the code instead
rewrites it to the agent's name, because `{{agent.name}}` is compiled to a
regular expression whose `.` matches the `X`. -/
theorem populateTemplate_wildcard_counterexample :
    ((populateTemplate { id := "s1", elements := [exElemC3] } exDataC3).elements.map
        (fun e => e.content)) = [some "Alice"] ∧
    ((replacements exDataC3).all
        (fun pv => !containsLit pv.1 "\x7b\x7bagentXname\x7d\x7d")) = true ∧
    some "Alice" ≠ some "\x7b\x7bagentXname\x7d\x7d" := by
  refine ⟨rfl, rfl, by decide⟩

/-- C4 (amended).  For an image element whose non-empty content matches
`{{images[N]}}`, `populateTemplate` replaces the whole content by
`data.images[N]` when index `N` exists in the image list AND the string
stored there is truthy (non-empty); it leaves the element unchanged when the
index does not exist, and — the correction — also when the index exists but
holds the empty string, because the source guards the substitution with the
truthiness test `if (data.images[imageIndex])`. -/
theorem populateTemplate_image_branch (data : RealEstateData) (slide : Slide)
    (element : SlideElement) (c : String) (imageIndex : Nat)
    (hmem : element ∈ slide.elements)
    (hc : element.content = some c) (hne : c ≠ "")
    (htype : element.type = ElemType.image) (hopen : containsImagesOpen c = true)
    (hidx : findImageIdx c.data = some imageIndex) :
    ∃ element' ∈ (populateTemplate slide data).elements,
      (∀ url, data.images[imageIndex]? = some url → url ≠ "" →
        element'.content = some url ∧
        { element' with content := element.content } = element) ∧
      (data.images[imageIndex]? = none → element' = element) ∧
      (data.images[imageIndex]? = some "" → element' = element) := by
  obtain ⟨eid, etype, ex, ey, ew, eht, econt, esty, ez⟩ := element
  change econt = some c at hc
  subst hc
  change etype = ElemType.image at htype
  subst htype
  refine ⟨_, List.mem_map.mpr ⟨_, hmem, rfl⟩, ?_, ?_, ?_⟩
  · intro url hurl hne2
    have hpe : populateElement data
        ⟨eid, ElemType.image, ex, ey, ew, eht, some c, esty, ez⟩ =
        ⟨eid, ElemType.image, ex, ey, ew, eht, some url, esty, ez⟩ := by
      unfold populateElement
      simp [hne, hopen, hidx, hurl, hne2]
    rw [hpe]
    exact ⟨rfl, rfl⟩
  · intro hnone
    unfold populateElement
    simp [hne, hopen, hidx, hnone]
  · intro hempty
    unfold populateElement
    simp [hne, hopen, hidx, hempty]

theorem populateTemplate_image_branch_witness :
    ∃ element' ∈ (populateTemplate { id := "s4", elements := [exElemC4w] } exDataC4w).elements,
      (∀ url, exDataC4w.images[1]? = some url → url ≠ "" →
        element'.content = some url ∧
        { element' with content := exElemC4w.content } = exElemC4w) ∧
      (exDataC4w.images[1]? = none → element' = exElemC4w) ∧
      (exDataC4w.images[1]? = some "" → element' = exElemC4w) :=
  populateTemplate_image_branch exDataC4w { id := "s4", elements := [exElemC4w] }
    exElemC4w "\x7b\x7bimages[1]\x7d\x7d" 1 (by simp) rfl (by decide) rfl rfl rfl

/-- C4 counterexample.  With `data.images = [""]` the index 0 exists
(`0 < 1`, second conjunct), so the claim demands the image element's content
`{{images[0]}}` be replaced by `data.images[0] = ""`; the code's truthiness
guard skips the substitution and the content comes through unchanged (first
conjunct), which differs from the demanded empty content (last conjunct). -/
theorem populateTemplate_image_truthiness_counterexample :
    ((populateTemplate { id := "s1", elements := [exElemC4] } exDataC4).elements.map
        (fun e => e.content)) = [some "\x7b\x7bimages[0]\x7d\x7d"] ∧
    0 < exDataC4.images.length ∧
    exDataC4.images[0]? = some "" ∧
    some "\x7b\x7bimages[0]\x7d\x7d" ≠ some "" := by
  refine ⟨rfl, by decide, rfl, by decide⟩
